import Mathlib

/-!
Shallow embedding of `robot_framework/process.py` (Python-ExcelRefresher).

The program is a linear pipeline: parse a queued work item, authenticate to
SharePoint, download one file, refresh it through Excel COM in a subprocess
with a hard timeout, upload it back (optionally also into a dated archive
folder), and delete the local scratch copy.  External effects (SharePoint
calls, the Excel engine, logging, the filesystem) are modelled as explicit
state passing over a `World`, fault oracles in `Oracles`, and an event trace
`List Ev`.  Strings are modelled as `List Char` so that Python's
`str.split('/')` can be embedded and reasoned about directly.
-/

namespace ExcelRefresher

/-- Strings of the embedded program, as lists of characters. -/
abbrev Str := List Char

/-- Model of Python `s.split('/')` (lines 80 and 160): accumulate the current
segment (reversed) and cut at every separator.  Python's split with an
explicit separator always returns a nonempty list. -/
def splitSlashAux : Str → Str → List Str
  | [], acc => [acc.reverse]
  | c :: cs, acc =>
    if c = '/' then acc.reverse :: splitSlashAux cs []
    else splitSlashAux cs (c :: acc)

/-- Python `s.split('/')`. -/
def splitSlash (s : Str) : List Str := splitSlashAux s []

/-- Model of Python `'/'.join(parts)` (lines 82 and 162). -/
def joinSlash : List Str → Str
  | [] => []
  | [s] => s
  | s :: ss => s ++ '/' :: joinSlash ss

/-- Result of the path-split step shared by download (lines 80-83) and
upload (lines 160-163). -/
structure PathParts where
  library : Str
  folderPath : Str
  fileName : Str
deriving DecidableEq

/-- Lines 80-83 / 160-163: `path_parts = url.split('/')`;
`DOCUMENT_LIBRARY = path_parts[0]`;
`FOLDER_PATH = '/'.join(path_parts[1:-1]) if len(path_parts) > 2 else ''`;
`file_name = path_parts[-1]`.  `split` never returns an empty list, so the
`headD`/`getLastD` defaults are never used. -/
def splitSharePointUrl (url : Str) : PathParts :=
  let pathParts := splitSlash url
  { library := pathParts.headD []
    folderPath :=
      if 2 < pathParts.length then joinSlash ((pathParts.drop 1).dropLast) else []
    fileName := pathParts.getLastD [] }

/-- Model of `os.path.join` on two components (Windows separator).  The
claims never exercise the absolute-second-argument corner of
`os.path.join`, so plain separator concatenation is faithful here. -/
def osJoin (a b : Str) : Str := a ++ '\\' :: b

/-- A workbook: the external-data queries it embeds and the cached query
results.  `RefreshAll` recomputes the cache from the external sources and
leaves the queries unchanged. -/
structure Workbook where
  queries : Nat
  cache : Nat
deriving DecidableEq

/-- Content written by `open(path, "wb")` before any download bytes arrive:
an empty scratch file, modelled as a blank workbook. -/
def emptyWb : Workbook := { queries := 0, cache := 0 }

/-- Local filesystem state: file contents by path, directory existence. -/
@[ext]
structure FS where
  files : Str → Option Workbook
  dirs : Str → Bool

/-- Point update of a path-indexed map. -/
def setMap (m : Str → Option Workbook) (k : Str) (v : Workbook) : Str → Option Workbook :=
  fun q => if q = k then some v else m q

/-- Model of `os.path.exists` on a file path. -/
def fsHasFile (fs : FS) (p : Str) : Bool := (fs.files p).isSome

/-- Writing (creating or truncating) a local file. -/
def writeFile (fs : FS) (p : Str) (c : Workbook) : FS :=
  { fs with files := setMap fs.files p c }

/-- Model of `os.remove`: the caller must check existence first; on a missing file the
real call raises, which the callers below model explicitly. -/
def removeFile (fs : FS) (p : Str) : FS :=
  { fs with files := fun q => if q = p then none else fs.files q }

/-- Model of `os.makedirs`. -/
def mkdirFS (fs : FS) (p : Str) : FS :=
  { fs with dirs := fun q => if q = p then true else fs.dirs q }

/-- The Excel COM calls issued by `refresh_excel_file` (lines 127-146). -/
inductive XlOp where
  | dispatchEx
  | setVisibleFalse
  | openWorkbook
  | refreshAll
  | calcUntilAsyncDone
  | save
  | closeWb
  | quitApp
deriving DecidableEq

/-- The call sequence of `refresh_excel_file`, in source order. -/
def refreshSteps : List XlOp :=
  [XlOp.dispatchEx, XlOp.setVisibleFalse, XlOp.openWorkbook, XlOp.refreshAll,
   XlOp.calcUntilAsyncDone, XlOp.save, XlOp.closeWb, XlOp.quitApp]

/-- Observable events of a run: orchestrator log lines, local filesystem
actions, one-second poll sleeps, Excel COM calls, the forced kill of the
refresh subprocess, and SharePoint uploads (folder, file name, content). -/
inductive Ev where
  | logTrace (msg : Str)
  | logInfo (msg : Str)
  | logError (msg : Str)
  | mkdir (path : Str)
  | createLocal (path : Str)
  | sleepSecond
  | xl (op : XlOp)
  | subprocessKilled
  | uploadEv (folder : Str) (name : Str) (content : Workbook)
  | removeLocal (path : Str)
deriving DecidableEq

/-- Exceptions of the embedded program. -/
inductive PyErr where
  | authError
  | downloadRequestError
  | fileNotFoundError
  | runtimeError (msg : Str)
  | folderResolveError
  | uploadCallError
  | archiveError
  | unboundLocalError
deriving DecidableEq

/-- Python `str(e)` for the exceptions above; non-`RuntimeError` texts are
abstract constants of the external libraries. -/
def pyStr : PyErr → Str
  | PyErr.authError => "authentication failed".toList
  | PyErr.downloadRequestError => "download request failed".toList
  | PyErr.fileNotFoundError => "file not found".toList
  | PyErr.runtimeError m => m
  | PyErr.folderResolveError => "folder could not be resolved".toList
  | PyErr.uploadCallError => "upload call failed".toList
  | PyErr.archiveError => "archive step failed".toList
  | PyErr.unboundLocalError => "local variable referenced before assignment".toList

/-- Line 103: `wait_time = 60`. -/
def DOWNLOAD_WAIT_TIME : Nat := 60

/-- Line 105: `check_interval = 1`. -/
def CHECK_INTERVAL : Nat := 1

/-- Line 15: `@concurrent.process(timeout=60)` — the enforced value, not the
1800 of the adjacent comment. -/
def REFRESH_TIMEOUT : Nat := 60

/-- Lines 109-111: `while not os.path.exists(p) and elapsed < wait_time:
sleep(1); elapsed += 1`, returning the final `elapsed` (= number of
one-second sleeps).  `present t` is whether the file exists when checked
after `t` elapsed seconds.  The fuel argument keeps `fuel + elapsed =
DOWNLOAD_WAIT_TIME`, so running out of fuel is exactly the loop guard
`elapsed < wait_time` turning false. -/
def pollLoopAux (present : Nat → Bool) : Nat → Nat → Nat
  | 0, elapsed => elapsed
  | fuel + 1, elapsed =>
    if present elapsed then elapsed
    else pollLoopAux present fuel (elapsed + CHECK_INTERVAL)

/-- The whole existence-poll loop, started at `elapsed = 0`. -/
def pollLoop (present : Nat → Bool) : Nat := pollLoopAux present DOWNLOAD_WAIT_TIME 0

/-- Line 114: the post-loop `os.path.exists` check; `false` means the
`FileNotFoundError` branch is taken. -/
def downloadWaitCheck (present : Nat → Bool) : Bool := present (pollLoop present)

/-- Whether `needle` is an initial segment of `hay`. -/
def strStartsWith : Str → Str → Bool
  | [], _ => true
  | _ :: _, [] => false
  | a :: as, b :: bs => a = b && strStartsWith as bs

/-- Python `needle in hay` on strings. -/
def strContains (needle : Str) : Str → Bool
  | [] => strStartsWith needle []
  | c :: cs => strStartsWith needle (c :: cs) || strContains needle cs

/-- The `"timeout" in str(e).lower()` test (line 45). -/
def hasTimeoutSub (s : Str) : Bool :=
  strContains ("timeout".toList) (s.map Char.toLower)

/-- The text of the `TimeoutError` pebble's future raises when the
subprocess exceeds its timeout. -/
def taskTimeoutMsg : Str := "Task timeout".toList

/-- The literal custom-function value that triggers the archive upload
(line 183). -/
def monthlyFolderStr : Str := "MonthlyFolder".toList

/-- Danish month names as produced by `strftime("%B")` under `da_DK`. -/
def danishMonth (m : Fin 12) : Str :=
  match m.val with
  | 0 => "januar".toList
  | 1 => "februar".toList
  | 2 => "marts".toList
  | 3 => "april".toList
  | 4 => "maj".toList
  | 5 => "juni".toList
  | 6 => "juli".toList
  | 7 => "august".toList
  | 8 => "september".toList
  | 9 => "oktober".toList
  | 10 => "november".toList
  | _ => "december".toList

/-- Python `str.capitalize()`: first character upper, rest lower. -/
def pyCapitalize : Str → Str
  | [] => []
  | c :: cs => c.toUpper :: cs.map Char.toLower

/-- Python `str(n)` for a natural number. -/
def natStr (n : Nat) : Str := Nat.toDigits 10 n

/-- The external world: current working directory, user home, the site's
display title, the local filesystem, and the remote store keyed by
server-relative path. -/
@[ext]
structure World where
  cwd : Str
  home : Str
  siteTitle : Str
  fs : FS
  remote : Str → Option Workbook

/-- The parsed queue payload (lines 24-26); the site URL only feeds
authentication, which the oracles model. -/
structure RunCfg where
  folderPath : Str
  customFunction : Option Str

/-- Behaviour of the external collaborators during one run: which calls
fail, how long the refresh subprocess takes, the external data sources the
refresh queries, and the local clock. -/
structure Oracles where
  authFail : Bool
  downloadReqFail : Bool
  refreshTime : Nat
  refreshFault : XlOp → Option Str
  ext : Nat → Nat
  uploadFolderFail : Bool
  uploadCallFail : Bool
  archiveFail : Bool
  year : Nat
  month : Fin 12

/-- Model of `refresh_excel_file` (lines 121-150) as a step run over `refreshSteps`:
each COM call either raises (fault oracle, with the exception text) or
executes.  `mem` is the open workbook in Excel's memory, `disk` the saved
file; `RefreshAll` recomputes the cache, `Save` / `Close(SaveChanges=True)`
persist.  Returns the executed-call trace, the on-disk content, and the
raised exception text if any. -/
def runXl (fault : XlOp → Option Str) (ext : Nat → Nat) :
    List XlOp → Workbook → Workbook → List Ev × Workbook × Option Str
  | [], _, disk => ([], disk, none)
  | op :: rest, mem, disk =>
    match fault op with
    | some msg => ([], disk, some msg)
    | none =>
      let mem2 := if op = XlOp.refreshAll then { queries := mem.queries, cache := ext mem.queries } else mem
      let disk2 := if op = XlOp.save ∨ op = XlOp.closeWb then mem2 else disk
      let r := runXl fault ext rest mem2 disk2
      (Ev.xl op :: r.1, r.2)

/-- Line 86: the computed documents-folder destination — named by the
subfolder chain when present, otherwise by the library. -/
def docFolder (url : Str) (w : World) : Str :=
  let pp := splitSharePointUrl url
  if pp.folderPath ≠ [] then osJoin (osJoin w.home ("Documents".toList)) pp.folderPath
  else osJoin (osJoin w.home ("Documents".toList)) pp.library

/-- Line 93: the actual write target — the bare filename joined to the
current working directory. -/
def dlPath (url : Str) (w : World) : Str := osJoin w.cwd (splitSharePointUrl url).fileName

/-- Model of `download_file_from_sharepoint` (lines 74-118).  Returns the events, the
updated world, and either the local write path or the raised exception.
Note that `open(download_path, "wb")` creates the scratch file before the
download request is issued, and that the poll checks the write path.  The
run is single-threaded, so the file's presence does not change while the
loop polls: the loop's presence oracle is the constant lifted from the
filesystem state after the download. -/
def downloadModel (url : Str) (w : World) (o : Oracles) :
    List Ev × World × Except PyErr Str :=
  let documentsFolder := docFolder url w
  let mkd :=
    if w.fs.dirs documentsFolder then (([] : List Ev), w.fs)
    else ([Ev.mkdir documentsFolder], mkdirFS w.fs documentsFolder)
  let downloadPath := dlPath url w
  let fs2 := writeFile mkd.2 downloadPath emptyWb
  let evOpen := mkd.1 ++ [Ev.createLocal downloadPath]
  match (if o.downloadReqFail then none else w.remote url) with
  | none => (evOpen, { w with fs := fs2 }, Except.error PyErr.downloadRequestError)
  | some content =>
    let fs3 := writeFile fs2 downloadPath content
    let present : Bool := fsHasFile fs3 downloadPath
    let evSleep := List.replicate (pollLoop (fun _ => present)) Ev.sleepSecond
    if downloadWaitCheck (fun _ => present) then
      (evOpen ++ evSleep ++ [Ev.logInfo ("[Ok] file has been downloaded into: ".toList ++ downloadPath)],
       { w with fs := fs3 }, Except.ok downloadPath)
    else
      (evOpen ++ evSleep, { w with fs := fs3 }, Except.error PyErr.fileNotFoundError)

/-- The server-relative folder the upload targets (lines 165-169). -/
def uploadTargetFolder (url : Str) : Str :=
  let pp := splitSharePointUrl url
  if pp.folderPath ≠ [] then pp.library ++ '/' :: pp.folderPath else pp.library

/-- The server-relative path the uploaded file lands at. -/
def uploadTargetPath (url : Str) : Str :=
  uploadTargetFolder url ++ '/' :: (splitSharePointUrl url).fileName

/-- The archive folder chain `Dokumenter/Historik/<year>/<month>` of the
`"MonthlyFolder"` branch (lines 186-196). -/
def archiveFolder (year : Nat) (month : Fin 12) : Str :=
  "Dokumenter/Historik".toList ++ '/' :: natStr year ++ '/' :: pyCapitalize (danishMonth month)

/-- The synthesized archive file name `DKPlan_<Month>_<Year>.xlsx` (line 199). -/
def archiveName (year : Nat) (month : Fin 12) : Str :=
  "DKPlan_".toList ++ pyCapitalize (danishMonth month) ++ '_' :: natStr year ++ ".xlsx".toList

/-- Model of `upload_file_to_sharepoint` (lines 154-202): resolve the original
folder, upload under the original name, optionally produce the monthly
archive copy, then `os.remove` the local file.  Failures leave the local
file in place (the caller's handler deals with it). -/
def uploadModel (url : Str) (localPath : Str) (customFunction : Option Str)
    (w : World) (o : Oracles) : List Ev × World × Except PyErr Unit :=
  let pp := splitSharePointUrl url
  let folderPath := uploadTargetFolder url
  if o.uploadFolderFail then ([], w, Except.error PyErr.folderResolveError)
  else
    match w.fs.files localPath with
    | none => ([], w, Except.error PyErr.fileNotFoundError)
    | some content =>
      if o.uploadCallFail then ([], w, Except.error PyErr.uploadCallError)
      else
        let serverUrl1 := folderPath ++ '/' :: pp.fileName
        let ev1 := [Ev.uploadEv folderPath pp.fileName content,
                    Ev.logInfo ("[Ok] file has been uploaded to: ".toList ++ serverUrl1 ++ " on SharePoint".toList)]
        let remote1 := setMap w.remote serverUrl1 content
        if customFunction = some monthlyFolderStr then
          let evC := [Ev.logInfo ("Custom function: ".toList ++ monthlyFolderStr)]
          if o.archiveFail then
            (ev1 ++ evC, { w with remote := remote1 }, Except.error PyErr.archiveError)
          else
            let archF := archiveFolder o.year o.month
            let archN := archiveName o.year o.month
            let serverUrl2 := archF ++ '/' :: archN
            let ev2 := evC ++ [Ev.uploadEv archF archN content,
                               Ev.logInfo ("[Ok] file has been uploaded to: ".toList ++ serverUrl2 ++ " on SharePoint".toList)]
            (ev1 ++ ev2 ++ [Ev.removeLocal localPath],
             { w with remote := setMap remote1 serverUrl2 content, fs := removeFile w.fs localPath },
             Except.ok ())
        else
          (ev1 ++ [Ev.removeLocal localPath],
           { w with remote := remote1, fs := removeFile w.fs localPath },
           Except.ok ())

/-- Lines 53-56 in the case where `local_file_path` was assigned: the
top-level handler runs `os.remove(local_file_path)` unconditionally — if the
file is missing the remove itself raises `FileNotFoundError`, replacing the
caught exception before anything is logged; otherwise the file is removed,
`str(e)` is logged, and `e` is re-raised. -/
def exceptHandlerBound (pre : List Ev) (w : World) (localPath : Str) (e : PyErr) :
    List Ev × World × Option PyErr :=
  match w.fs.files localPath with
  | some _ =>
    (pre ++ [Ev.removeLocal localPath, Ev.logError (pyStr e)],
     { w with fs := removeFile w.fs localPath }, some e)
  | none => (pre, w, some PyErr.fileNotFoundError)

/-- Model of `process` (lines 19-56).  `sharepoint_client` is called before the
`try:` block, so an authentication failure propagates uncaught.  When the
download raises, the handler's `os.remove(local_file_path)` touches an
unassigned variable, so an unbound-variable error replaces the original
exception.  The refresh runs under pebble's `timeout=60`; on timeout the
subprocess is killed and `future.result()` raises a `TimeoutError` whose
text is `"Task timeout"`, which the `"timeout" in str(e).lower()` test
routes to the timeout branch of lines 45-47. -/
def processModel (cfg : RunCfg) (w : World) (o : Oracles) :
    List Ev × World × Option PyErr :=
  let ev0 : List Ev := [Ev.logTrace ("Running process.".toList)]
  if o.authFail then (ev0, w, some PyErr.authError)
  else
    let ev1 := ev0 ++ [Ev.logInfo ("Authenticated successfully. Site Title: ".toList ++ w.siteTitle)]
    let d := downloadModel cfg.folderPath w o
    match d.2.2 with
    | Except.error _ => (ev1 ++ d.1, d.2.1, some PyErr.unboundLocalError)
    | Except.ok localPath =>
      let wD := d.2.1
      let evD := ev1 ++ d.1
      if REFRESH_TIMEOUT < o.refreshTime then
        let msg := taskTimeoutMsg
        if hasTimeoutSub msg then
          exceptHandlerBound
            (evD ++ [Ev.subprocessKilled,
                     Ev.logError ("refresh_excel_file exceeded the timeout of 30 minutes.".toList)])
            wD localPath
            (PyErr.runtimeError ("refresh_excel_file did not complete within the allowed time.".toList))
        else
          exceptHandlerBound
            (evD ++ [Ev.subprocessKilled,
                     Ev.logError ("An error occurred during refresh_excel_file execution: ".toList ++ msg)])
            wD localPath
            (PyErr.runtimeError ("Error in refresh_excel_file: ".toList ++ msg))
      else
        let wb := (wD.fs.files localPath).getD emptyWb
        let r := runXl o.refreshFault o.ext refreshSteps wb wb
        let wX := { wD with fs := writeFile wD.fs localPath r.2.1 }
        match r.2.2 with
        | some msg =>
          if hasTimeoutSub msg then
            exceptHandlerBound
              (evD ++ r.1 ++ [Ev.logError ("refresh_excel_file exceeded the timeout of 30 minutes.".toList)])
              wX localPath
              (PyErr.runtimeError ("refresh_excel_file did not complete within the allowed time.".toList))
          else
            exceptHandlerBound
              (evD ++ r.1 ++ [Ev.logError ("An error occurred during refresh_excel_file execution: ".toList ++ msg)])
              wX localPath
              (PyErr.runtimeError ("Error in refresh_excel_file: ".toList ++ msg))
        | none =>
          let evR := evD ++ r.1 ++
            [Ev.logInfo ("[Ok] Excel file at ".toList ++ localPath ++ " has been refreshed and saved.".toList)]
          let u := uploadModel cfg.folderPath localPath cfg.customFunction wX o
          match u.2.2 with
          | Except.error e => exceptHandlerBound (evR ++ u.1) u.2.1 localPath e
          | Except.ok _ => (evR ++ u.1, u.2.1, none)

/-- The server-relative path of the monthly archive upload. -/
def archivePath (year : Nat) (month : Fin 12) : Str :=
  archiveFolder year month ++ '/' :: archiveName year month

/-- The workbook after a refresh against external sources `o.ext`: the
cached data is recomputed from the queries, which stay as they were. -/
def refreshedWb (o : Oracles) (c : Workbook) : Workbook :=
  { queries := c.queries, cache := o.ext c.queries }

/-- The event trace of a fault-free run of `process` on a work item whose
remote file holds `c`. -/
def successTrace (cfg : RunCfg) (w : World) (o : Oracles) (c : Workbook) : List Ev :=
  [Ev.logTrace ("Running process.".toList),
   Ev.logInfo ("Authenticated successfully. Site Title: ".toList ++ w.siteTitle)] ++
  (if w.fs.dirs (docFolder cfg.folderPath w) then ([] : List Ev)
   else [Ev.mkdir (docFolder cfg.folderPath w)]) ++
  [Ev.createLocal (dlPath cfg.folderPath w),
   Ev.logInfo ("[Ok] file has been downloaded into: ".toList ++ dlPath cfg.folderPath w)] ++
  refreshSteps.map Ev.xl ++
  [Ev.logInfo ("[Ok] Excel file at ".toList ++ dlPath cfg.folderPath w ++ " has been refreshed and saved.".toList),
   Ev.uploadEv (uploadTargetFolder cfg.folderPath) (splitSharePointUrl cfg.folderPath).fileName (refreshedWb o c),
   Ev.logInfo ("[Ok] file has been uploaded to: ".toList ++ uploadTargetPath cfg.folderPath ++ " on SharePoint".toList)] ++
  (if cfg.customFunction = some monthlyFolderStr then
    [Ev.logInfo ("Custom function: ".toList ++ monthlyFolderStr),
     Ev.uploadEv (archiveFolder o.year o.month) (archiveName o.year o.month) (refreshedWb o c),
     Ev.logInfo ("[Ok] file has been uploaded to: ".toList ++ archivePath o.year o.month ++ " on SharePoint".toList)]
   else ([] : List Ev)) ++
  [Ev.removeLocal (dlPath cfg.folderPath w)]

/-- The world after a fault-free run of `process` on a work item whose
remote file holds `c`: locally the scratch file is gone and the computed
documents folder exists; remotely the refreshed content sits at the original
path, and also at the archive path on the `"MonthlyFolder"` variant. -/
def successWorld (cfg : RunCfg) (w : World) (o : Oracles) (c : Workbook) : World :=
  { w with
    fs := { files := fun q => if q = dlPath cfg.folderPath w then none else w.fs.files q
            dirs := fun q => if q = docFolder cfg.folderPath w then true else w.fs.dirs q }
    remote :=
      if cfg.customFunction = some monthlyFolderStr then
        setMap (setMap w.remote (uploadTargetPath cfg.folderPath) (refreshedWb o c))
          (archivePath o.year o.month) (refreshedWb o c)
      else setMap w.remote (uploadTargetPath cfg.folderPath) (refreshedWb o c) }

/-- Log events of a trace (the milestones the orchestrator records). -/
def isLogEv : Ev → Bool
  | Ev.logTrace _ => true
  | Ev.logInfo _ => true
  | Ev.logError _ => true
  | _ => false

/-- Error-log events of a trace. -/
def isLogErrorEv : Ev → Bool
  | Ev.logError _ => true
  | _ => false

/-- Upload events of a trace. -/
def isUploadEv : Ev → Bool
  | Ev.uploadEv _ _ _ => true
  | _ => false

/-- Local-file deletion events of a trace. -/
def isRemoveEv : Ev → Bool
  | Ev.removeLocal _ => true
  | _ => false

/-! ### Sample concrete inputs used by the closed theorems and witnesses -/

/-- A concrete local/remote world: empty local filesystem, one remote file. -/
def sampleWorld : World :=
  { cwd := "C:\\tasks".toList
    home := "C:\\Users\\robot".toList
    siteTitle := "Aarhus".toList
    fs := { files := fun _ => none, dirs := fun _ => false }
    remote := fun p =>
      if p = "Docs/Reports/plan.xlsx".toList then some { queries := 5, cache := 0 } else none }

/-- A concrete work item without a custom function. -/
def sampleCfg : RunCfg :=
  { folderPath := "Docs/Reports/plan.xlsx".toList, customFunction := none }

/-- The same concrete work item with the `"MonthlyFolder"` custom function. -/
def sampleCfgMonthly : RunCfg :=
  { folderPath := "Docs/Reports/plan.xlsx".toList, customFunction := some monthlyFolderStr }

/-- Fault-free concrete oracles: nothing fails, the refresh takes 3 seconds. -/
def sampleOracles : Oracles :=
  { authFail := false, downloadReqFail := false, refreshTime := 3
    refreshFault := fun _ => none, ext := fun q => q + 7
    uploadFolderFail := false, uploadCallFail := false, archiveFail := false
    year := 2026, month := 9 }

/-! ### Lemmas about the path-split step -/

theorem splitSlashAux_no_slash (s acc : Str) (h : ∀ c ∈ s, c ≠ '/') :
    splitSlashAux s acc = [acc.reverse ++ s] := by
  induction s generalizing acc with
  | nil => simp [splitSlashAux]
  | cons c cs ih =>
    have hc : c ≠ '/' := h c (List.mem_cons_self c cs)
    rw [splitSlashAux, if_neg hc, ih (c :: acc) (fun x hx => h x (List.mem_cons_of_mem c hx))]
    simp

theorem splitSlashAux_cut (s rest acc : Str) (h : ∀ c ∈ s, c ≠ '/') :
    splitSlashAux (s ++ '/' :: rest) acc = (acc.reverse ++ s) :: splitSlashAux rest [] := by
  induction s generalizing acc with
  | nil => simp [splitSlashAux]
  | cons c cs ih =>
    have hc : c ≠ '/' := h c (List.mem_cons_self c cs)
    rw [List.cons_append, splitSlashAux, if_neg hc,
      ih (c :: acc) (fun x hx => h x (List.mem_cons_of_mem c hx))]
    simp

theorem splitSlash_joinSlash (ss : List Str) (h1 : ss ≠ [])
    (h2 : ∀ s ∈ ss, ∀ c ∈ s, c ≠ '/') : splitSlash (joinSlash ss) = ss := by
  induction ss with
  | nil => exact absurd rfl h1
  | cons s rest ih =>
    cases rest with
    | nil =>
      rw [show joinSlash [s] = s from rfl, splitSlash,
        splitSlashAux_no_slash s [] (h2 s (List.mem_cons_self s []))]
      simp
    | cons t r =>
      rw [show joinSlash (s :: t :: r) = s ++ '/' :: joinSlash (t :: r) from rfl, splitSlash,
        splitSlashAux_cut s _ [] (h2 s (List.mem_cons_self s (t :: r)))]
      rw [show splitSlashAux (joinSlash (t :: r)) [] = splitSlash (joinSlash (t :: r)) from rfl]
      rw [ih (by simp) (fun x hx => h2 x (List.mem_cons_of_mem s hx))]
      simp

/-! ### Basic evaluation lemmas -/

theorem writeFile_files_self (fs : FS) (p : Str) (c : Workbook) :
    (writeFile fs p c).files p = some c := by
  simp [writeFile, setMap]

theorem pollLoop_const_true : pollLoop (fun _ => true) = 0 := rfl

theorem downloadWaitCheck_const_true : downloadWaitCheck (fun _ => true) = true := rfl

theorem taskTimeout_has_sub : hasTimeoutSub taskTimeoutMsg = true := by decide

theorem setMap_get (m : Str → Option Workbook) (k : Str) (v : Workbook) :
    setMap m k v k = some v := by simp [setMap]

theorem setMap_self (m : Str → Option Workbook) (k : Str) (v : Workbook)
    (h : m k = some v) : setMap m k v = m := by
  funext q
  by_cases hq : q = k
  · subst hq; simp [setMap, h]
  · simp [setMap, hq]

theorem pollLoopAux_never (present : Nat → Bool) (h : ∀ t, present t = false) :
    ∀ fuel elapsed, pollLoopAux present fuel elapsed = fuel * CHECK_INTERVAL + elapsed := by
  intro fuel
  induction fuel with
  | zero => intro elapsed; simp [pollLoopAux]
  | succ f ih =>
    intro elapsed
    rw [pollLoopAux, h elapsed]
    simp only [Bool.false_eq_true, if_false, ih (elapsed + CHECK_INTERVAL)]
    simp [CHECK_INTERVAL]
    omega

/-! ### Shape lemmas for the download operation -/

theorem downloadModel_err (url : Str) (w : World) (o : Oracles)
    (h : (if o.downloadReqFail then none else w.remote url) = none) :
    downloadModel url w o =
      ((if w.fs.dirs (docFolder url w) then ([] : List Ev) else [Ev.mkdir (docFolder url w)]) ++
         [Ev.createLocal (dlPath url w)],
       { w with fs := (writeFile
          (if w.fs.dirs (docFolder url w) then w.fs else mkdirFS w.fs (docFolder url w))
          (dlPath url w) emptyWb) },
       Except.error PyErr.downloadRequestError) := by
  by_cases hd : w.fs.dirs (docFolder url w) <;> simp [downloadModel, h, hd]

theorem downloadModel_ok (url : Str) (w : World) (o : Oracles) (c : Workbook)
    (h : (if o.downloadReqFail then none else w.remote url) = some c) :
    downloadModel url w o =
      ((if w.fs.dirs (docFolder url w) then ([] : List Ev) else [Ev.mkdir (docFolder url w)]) ++
         [Ev.createLocal (dlPath url w),
          Ev.logInfo ("[Ok] file has been downloaded into: ".toList ++ dlPath url w)],
       { w with fs := (writeFile (writeFile
          (if w.fs.dirs (docFolder url w) then w.fs else mkdirFS w.fs (docFolder url w))
          (dlPath url w) emptyWb) (dlPath url w) c) },
       Except.ok (dlPath url w)) := by
  by_cases hd : w.fs.dirs (docFolder url w) <;>
    simp [downloadModel, h, hd, fsHasFile, writeFile, setMap,
      pollLoop_const_true, downloadWaitCheck_const_true]

/-- In every branch, the download trace holds only directory-creation,
file-creation, sleep and info-log events. -/
theorem downloadModel_filter_none (url : Str) (w : World) (o : Oracles) (p : Ev → Bool)
    (hmk : ∀ m, p (Ev.mkdir m) = false) (hcr : ∀ m, p (Ev.createLocal m) = false)
    (hli : ∀ m, p (Ev.logInfo m) = false) :
    (downloadModel url w o).1.filter p = [] := by
  cases h : (if o.downloadReqFail then none else w.remote url) with
  | none =>
    rw [downloadModel_err url w o h]
    by_cases hd : w.fs.dirs (docFolder url w) <;>
      simp [hd, List.filter_append, List.filter_cons, hmk, hcr, hli]
  | some c =>
    rw [downloadModel_ok url w o c h]
    by_cases hd : w.fs.dirs (docFolder url w) <;>
      simp [hd, List.filter_append, List.filter_cons, hmk, hcr, hli]

/-! ### Shape lemmas for the refresh and upload operations -/

theorem runXl_no_fault (fault : XlOp → Option Str) (ext : Nat → Nat)
    (h : ∀ op, fault op = none) (m d : Workbook) :
    runXl fault ext refreshSteps m d =
      (refreshSteps.map Ev.xl, { queries := m.queries, cache := ext m.queries }, none) := by
  simp [runXl, refreshSteps, h]

theorem runXl_fault_after (fault : XlOp → Option Str) (ext : Nat → Nat) (msg : Str) :
    ∀ l1 op l2 (m d : Workbook), (∀ x ∈ l1, fault x = none) → fault op = some msg →
      (runXl fault ext (l1 ++ op :: l2) m d).1 = l1.map Ev.xl ∧
      (runXl fault ext (l1 ++ op :: l2) m d).2.2 = some msg := by
  intro l1
  induction l1 with
  | nil => intro op l2 m d h1 h2; simp [runXl, h2]
  | cons x xs ih =>
    intro op l2 m d h1 h2
    have hx : fault x = none := h1 x (List.mem_cons_self x xs)
    have hxs := ih op l2
      (if x = XlOp.refreshAll then { queries := m.queries, cache := ext m.queries } else m)
      (if x = XlOp.save ∨ x = XlOp.closeWb then
        (if x = XlOp.refreshAll then { queries := m.queries, cache := ext m.queries } else m)
       else d)
      (fun y hy => h1 y (List.mem_cons_of_mem x hy)) h2
    simp only [List.cons_append, runXl, hx, List.map_cons]
    exact ⟨congrArg (List.cons (Ev.xl x)) hxs.1, hxs.2⟩

theorem uploadModel_ok_plain (url localPath : Str) (cf : Option Str) (w : World)
    (o : Oracles) (c : Workbook)
    (hUF : o.uploadFolderFail = false) (hUC : o.uploadCallFail = false)
    (hFile : w.fs.files localPath = some c) (hCF : cf ≠ some monthlyFolderStr) :
    uploadModel url localPath cf w o =
      ([Ev.uploadEv (uploadTargetFolder url) (splitSharePointUrl url).fileName c,
        Ev.logInfo ("[Ok] file has been uploaded to: ".toList ++ uploadTargetPath url ++ " on SharePoint".toList),
        Ev.removeLocal localPath],
       { w with remote := setMap w.remote (uploadTargetPath url) c, fs := removeFile w.fs localPath },
       Except.ok ()) := by
  simp [uploadModel, hUF, hUC, hFile, hCF, uploadTargetPath]

theorem uploadModel_ok_monthly (url localPath : Str) (w : World) (o : Oracles) (c : Workbook)
    (hUF : o.uploadFolderFail = false) (hUC : o.uploadCallFail = false)
    (hFile : w.fs.files localPath = some c) (hAF : o.archiveFail = false) :
    uploadModel url localPath (some monthlyFolderStr) w o =
      ([Ev.uploadEv (uploadTargetFolder url) (splitSharePointUrl url).fileName c,
        Ev.logInfo ("[Ok] file has been uploaded to: ".toList ++ uploadTargetPath url ++ " on SharePoint".toList),
        Ev.logInfo ("Custom function: ".toList ++ monthlyFolderStr),
        Ev.uploadEv (archiveFolder o.year o.month) (archiveName o.year o.month) c,
        Ev.logInfo ("[Ok] file has been uploaded to: ".toList ++ archivePath o.year o.month ++ " on SharePoint".toList),
        Ev.removeLocal localPath],
       { w with remote := (setMap (setMap w.remote (uploadTargetPath url) c)
          (archivePath o.year o.month) c), fs := removeFile w.fs localPath },
       Except.ok ()) := by
  simp [uploadModel, hUF, hUC, hFile, hAF, uploadTargetPath, archivePath]

/-- Fault-free runs of `process` produce exactly the success trace and the
success world. -/
theorem processModel_ok (cfg : RunCfg) (w : World) (o : Oracles) (c : Workbook)
    (hA : o.authFail = false) (hR : o.downloadReqFail = false)
    (hRem : w.remote cfg.folderPath = some c)
    (hT : o.refreshTime ≤ REFRESH_TIMEOUT) (hF : ∀ op, o.refreshFault op = none)
    (hUF : o.uploadFolderFail = false) (hUC : o.uploadCallFail = false)
    (hAF : o.archiveFail = false) :
    processModel cfg w o = (successTrace cfg w o c, successWorld cfg w o c, none) := by
  have h : (if o.downloadReqFail then none else w.remote cfg.folderPath) = some c := by
    simp [hR, hRem]
  have hnt : ¬ REFRESH_TIMEOUT < o.refreshTime := Nat.not_lt.mpr hT
  have hrx := runXl_no_fault o.refreshFault o.ext hF c c
  by_cases hcf : cfg.customFunction = some monthlyFolderStr <;>
    simp only [processModel, hA, Bool.false_eq_true, if_false,
      downloadModel_ok cfg.folderPath w o c h, hnt, writeFile_files_self, Option.getD_some,
      hrx, uploadModel, uploadTargetPath, hUF, hUC, hAF, hcf, successTrace, successWorld,
      refreshedWb, archivePath, if_false, if_true, ite_false, ite_true, Prod.mk.injEq,
      List.append_assoc, List.cons_append, List.nil_append]
  all_goals
    refine ⟨trivial, ?_, trivial⟩
    apply World.ext <;> try rfl
    apply FS.ext
    · funext q
      by_cases hq : q = dlPath cfg.folderPath w <;>
        by_cases hd : w.fs.dirs (docFolder cfg.folderPath w) <;>
          simp [removeFile, writeFile, setMap, mkdirFS, hq, hd]
    · funext q
      by_cases hq : q = docFolder cfg.folderPath w <;>
        by_cases hd : w.fs.dirs (docFolder cfg.folderPath w) <;>
          simp [removeFile, writeFile, setMap, mkdirFS, hq, hd]

/-! ### Claim theorems -/

/-- C9: one run of the refresh operation performs, in this exact order, on a
single application instance made invisible right after start: start
application, set invisible, open workbook, refresh all connections, block
until asynchronous refreshes are done, save, close, quit — and with no
per-step recovery: when the first faulting call is `op`, exactly the calls
before `op` have run and the failure propagates out of the operation. -/
theorem C9_refresh_exact_sequence :
    (∀ (fault : XlOp → Option Str) (ext : Nat → Nat) (m d : Workbook),
      (∀ op, fault op = none) →
      runXl fault ext refreshSteps m d =
        ([Ev.xl XlOp.dispatchEx, Ev.xl XlOp.setVisibleFalse, Ev.xl XlOp.openWorkbook,
          Ev.xl XlOp.refreshAll, Ev.xl XlOp.calcUntilAsyncDone, Ev.xl XlOp.save,
          Ev.xl XlOp.closeWb, Ev.xl XlOp.quitApp],
         { queries := m.queries, cache := ext m.queries }, none)) ∧
    (∀ (fault : XlOp → Option Str) (ext : Nat → Nat) (m d : Workbook) l1 op l2 msg,
      refreshSteps = l1 ++ op :: l2 →
      (∀ x ∈ l1, fault x = none) → fault op = some msg →
      (runXl fault ext refreshSteps m d).1 = l1.map Ev.xl ∧
      (runXl fault ext refreshSteps m d).2.2 = some msg) := by
  constructor
  · intro fault ext m d h
    simpa [refreshSteps] using runXl_no_fault fault ext h m d
  · intro fault ext m d l1 op l2 msg hsteps h1 h2
    rw [hsteps]
    exact runXl_fault_after fault ext msg l1 op l2 m d h1 h2

/-- Concrete instantiation of `C9_refresh_exact_sequence`: a fault-free run
executes all eight calls in order, and a fault at the open-workbook call
stops the sequence after the first two calls and propagates. -/
theorem C9_refresh_exact_sequence_witness :
    runXl (fun _ => none) (fun q => q + 7) refreshSteps
        { queries := 5, cache := 0 } { queries := 5, cache := 0 } =
      ([Ev.xl XlOp.dispatchEx, Ev.xl XlOp.setVisibleFalse, Ev.xl XlOp.openWorkbook,
        Ev.xl XlOp.refreshAll, Ev.xl XlOp.calcUntilAsyncDone, Ev.xl XlOp.save,
        Ev.xl XlOp.closeWb, Ev.xl XlOp.quitApp],
       { queries := 5, cache := 12 }, none) ∧
    (runXl (fun op => if op = XlOp.openWorkbook then some ("COM failure".toList) else none)
        (fun q => q + 7) refreshSteps
        { queries := 5, cache := 0 } { queries := 5, cache := 0 }).1 =
      [Ev.xl XlOp.dispatchEx, Ev.xl XlOp.setVisibleFalse] := by
  constructor
  · exact (C9_refresh_exact_sequence.1 (fun _ => none) (fun q => q + 7)
      { queries := 5, cache := 0 } { queries := 5, cache := 0 } (fun _ => rfl)).trans (by decide)
  · have h := C9_refresh_exact_sequence.2
      (fun op => if op = XlOp.openWorkbook then some ("COM failure".toList) else none)
      (fun q => q + 7) { queries := 5, cache := 0 } { queries := 5, cache := 0 }
      [XlOp.dispatchEx, XlOp.setVisibleFalse] XlOp.openWorkbook
      [XlOp.refreshAll, XlOp.calcUntilAsyncDone, XlOp.save, XlOp.closeWb, XlOp.quitApp]
      ("COM failure".toList) (by decide) (by decide) (by decide)
    exact h.1.trans (by decide)

/-- C6: for every `FolderPath` made of slash-free segments, the path-split
step shared by download and upload yields the first segment as the library,
the last segment as the filename, and the middle segments joined by `'/'`
as the subfolder chain when there are three or more segments, and the empty
string when there are two or fewer. -/
theorem C6_path_split_segments (ss : List Str) (h1 : ss ≠ [])
    (h2 : ∀ s ∈ ss, ∀ c ∈ s, c ≠ '/') :
    splitSharePointUrl (joinSlash ss) =
      { library := ss.headD []
        folderPath := if 2 < ss.length then joinSlash ((ss.drop 1).dropLast) else []
        fileName := ss.getLastD [] } := by
  simp only [splitSharePointUrl, splitSlash_joinSlash ss h1 h2]

/-- Concrete instantiation of `C6_path_split_segments` on
`Docs/Reports/plan.xlsx`. -/
theorem C6_path_split_segments_witness :
    (["Docs".toList, "Reports".toList, "plan.xlsx".toList] ≠ ([] : List Str)) ∧
    splitSharePointUrl (joinSlash ["Docs".toList, "Reports".toList, "plan.xlsx".toList]) =
      { library := "Docs".toList
        folderPath := "Reports".toList
        fileName := "plan.xlsx".toList } :=
  ⟨by decide,
   (C6_path_split_segments ["Docs".toList, "Reports".toList, "plan.xlsx".toList]
      (by decide) (by decide)).trans (by decide)⟩

/-- C1: evaluation of the code at the failing input — a run in which the
download request raises after `open(download_path, "wb")` has created the
scratch file.  The handler's `os.remove(local_file_path)` references an
unassigned variable, so the run ends with an unbound-variable error and the
scratch file is still on disk, contradicting the claim that every exit path
deletes it. -/
theorem C1_scratch_file_left_behind :
    ((processModel sampleCfg sampleWorld { sampleOracles with downloadReqFail := true }).2.2
        = some PyErr.unboundLocalError) ∧
    fsHasFile (processModel sampleCfg sampleWorld
        { sampleOracles with downloadReqFail := true }).2.1.fs
      (osJoin sampleWorld.cwd ("plan.xlsx".toList)) = true := by decide

/-- C2 counterexample: at a run whose authentication fails, the failure is
not caught by the top-level handler — no error is logged and no deletion is
attempted — because the client is created before the `try:` block. -/
theorem C2_auth_failure_unhandled :
    ((processModel sampleCfg sampleWorld { sampleOracles with authFail := true }).2.2
        = some PyErr.authError) ∧
    ((processModel sampleCfg sampleWorld { sampleOracles with authFail := true }).1.filter
        isLogErrorEv = []) ∧
    ((processModel sampleCfg sampleWorld { sampleOracles with authFail := true }).1.filter
        isRemoveEv = []) := by decide

/-- C5: whenever the download statement completes without raising, the file
already exists at the write path — `open(path, "wb")` created it before the
request — so the existence poll exits on its first check without a single
sleep, and the file-not-found branch is not taken. -/
theorem C5_poll_exits_on_first_check (url : Str) (w : World) (o : Oracles) (c : Workbook)
    (hR : o.downloadReqFail = false) (hRem : w.remote url = some c) :
    (downloadModel url w o).2.2 = Except.ok (dlPath url w) ∧
    Ev.sleepSecond ∉ (downloadModel url w o).1 ∧
    (downloadModel url w o).2.2 ≠ Except.error PyErr.fileNotFoundError ∧
    fsHasFile (downloadModel url w o).2.1.fs (dlPath url w) = true := by
  have h : (if o.downloadReqFail then none else w.remote url) = some c := by
    simp [hR, hRem]
  rw [downloadModel_ok url w o c h]
  by_cases hd : w.fs.dirs (docFolder url w) <;>
    simp [hd, fsHasFile, writeFile_files_self]

/-- Concrete instantiation of `C5_poll_exits_on_first_check`. -/
theorem C5_poll_exits_on_first_check_witness :
    sampleOracles.downloadReqFail = false ∧
    sampleWorld.remote sampleCfg.folderPath = some { queries := 5, cache := 0 } ∧
    (downloadModel sampleCfg.folderPath sampleWorld sampleOracles).2.2 =
      Except.ok (dlPath sampleCfg.folderPath sampleWorld) ∧
    Ev.sleepSecond ∉ (downloadModel sampleCfg.folderPath sampleWorld sampleOracles).1 := by
  have h := C5_poll_exits_on_first_check sampleCfg.folderPath sampleWorld sampleOracles
    { queries := 5, cache := 0 } (by decide) (by decide)
  exact ⟨by decide, by decide, h.1, h.2.1⟩

/-- C7: for every completing download call, the written-to and returned path
is the bare filename joined to the current working directory; the separate
documents-folder destination — named by the subfolder chain when present,
otherwise by the library — is computed and created if absent, but no file is
ever written under it (the file map changes only at the write path). -/
theorem C7_download_write_target (url : Str) (w : World) (o : Oracles) (c : Workbook)
    (hR : o.downloadReqFail = false) (hRem : w.remote url = some c) :
    (downloadModel url w o).2.2 = Except.ok (osJoin w.cwd (splitSharePointUrl url).fileName) ∧
    (downloadModel url w o).2.1.fs.files (osJoin w.cwd (splitSharePointUrl url).fileName) = some c ∧
    (∀ q, q ≠ osJoin w.cwd (splitSharePointUrl url).fileName →
      (downloadModel url w o).2.1.fs.files q = w.fs.files q) ∧
    docFolder url w =
      (if (splitSharePointUrl url).folderPath ≠ [] then
        osJoin (osJoin w.home ("Documents".toList)) (splitSharePointUrl url).folderPath
      else osJoin (osJoin w.home ("Documents".toList)) (splitSharePointUrl url).library) ∧
    (downloadModel url w o).2.1.fs.dirs (docFolder url w) = true ∧
    (∀ q, q ≠ docFolder url w → (downloadModel url w o).2.1.fs.dirs q = w.fs.dirs q) := by
  have h : (if o.downloadReqFail then none else w.remote url) = some c := by
    simp [hR, hRem]
  rw [downloadModel_ok url w o c h]
  refine ⟨by simp [dlPath], ?_, ?_, rfl, ?_, ?_⟩
  · simp [dlPath, writeFile_files_self]
  · intro q hq
    by_cases hd : w.fs.dirs (docFolder url w) <;>
      simp [hd, writeFile, setMap, mkdirFS, dlPath, hq]
  · by_cases hd : w.fs.dirs (docFolder url w) <;> simp [hd, writeFile, mkdirFS]
  · intro q hq
    by_cases hd : w.fs.dirs (docFolder url w) <;> simp [hd, writeFile, mkdirFS, hq]

/-- Concrete instantiation of `C7_download_write_target`. -/
theorem C7_download_write_target_witness :
    sampleOracles.downloadReqFail = false ∧
    (downloadModel sampleCfg.folderPath sampleWorld sampleOracles).2.2 =
      Except.ok (osJoin sampleWorld.cwd (splitSharePointUrl sampleCfg.folderPath).fileName) ∧
    (downloadModel sampleCfg.folderPath sampleWorld sampleOracles).2.1.fs.dirs
      (docFolder sampleCfg.folderPath sampleWorld) = true := by
  have h := C7_download_write_target sampleCfg.folderPath sampleWorld sampleOracles
    { queries := 5, cache := 0 } (by decide) (by decide)
  exact ⟨by decide, h.1, h.2.2.2.2.1⟩

/-- C4: the download existence poll sleeps one second per check for up to 60
seconds; when the file never appears at the write path, the loop runs its
full 60-second budget and the not-found branch is taken; and a run whose
download raises performs no upload at all. -/
theorem C4_download_poll_timeout :
    (∀ present : Nat → Bool, (∀ t, present t = false) →
      pollLoop present = DOWNLOAD_WAIT_TIME ∧ DOWNLOAD_WAIT_TIME = 60 ∧
      CHECK_INTERVAL = 1 ∧ downloadWaitCheck present = false) ∧
    (∀ cfg w o e, (downloadModel cfg.folderPath w o).2.2 = Except.error e →
      (processModel cfg w o).1.filter isUploadEv = []) := by
  constructor
  · intro present h
    have hp : pollLoop present = 60 := by
      rw [pollLoop, pollLoopAux_never present h DOWNLOAD_WAIT_TIME 0]
      simp [DOWNLOAD_WAIT_TIME, CHECK_INTERVAL]
    exact ⟨hp, rfl, rfl, by rw [downloadWaitCheck, hp, h 60]⟩
  · intro cfg w o e he
    by_cases hA : o.authFail = true
    · simp [processModel, hA, isUploadEv]
    · simp only [Bool.not_eq_true] at hA
      simp only [processModel, hA, Bool.false_eq_true, if_false]
      rw [he]
      simp [List.filter_append, isUploadEv,
        downloadModel_filter_none cfg.folderPath w o isUploadEv
          (fun _ => rfl) (fun _ => rfl) (fun _ => rfl)]

/-- Concrete instantiation of `C4_download_poll_timeout`: a never-appearing
file exhausts the 60-second poll, and a failing download leads to a run with
no upload events. -/
theorem C4_download_poll_timeout_witness :
    pollLoop (fun _ => false) = DOWNLOAD_WAIT_TIME ∧
    downloadWaitCheck (fun _ => false) = false ∧
    (processModel sampleCfg sampleWorld
        { sampleOracles with downloadReqFail := true }).1.filter isUploadEv = [] := by
  have h1 := C4_download_poll_timeout.1 (fun _ => false) (fun _ => rfl)
  have h2 := C4_download_poll_timeout.2 sampleCfg sampleWorld
    { sampleOracles with downloadReqFail := true } PyErr.downloadRequestError (by rfl)
  exact ⟨h1.1, h1.2.2.2, h2⟩

/-- C3: the enforced refresh timeout is the fixed constant 60 seconds, and
in every run whose refresh subprocess does not return within it, the
subprocess is killed, the caller raises the timeout-specific runtime error,
and no upload happens. -/
theorem C3_refresh_timeout_enforced (cfg : RunCfg) (w : World) (o : Oracles) (c : Workbook)
    (hA : o.authFail = false) (hR : o.downloadReqFail = false)
    (hRem : w.remote cfg.folderPath = some c) (hT : REFRESH_TIMEOUT < o.refreshTime) :
    REFRESH_TIMEOUT = 60 ∧
    Ev.subprocessKilled ∈ (processModel cfg w o).1 ∧
    (processModel cfg w o).2.2 =
      some (PyErr.runtimeError ("refresh_excel_file did not complete within the allowed time.".toList)) ∧
    (processModel cfg w o).1.filter isUploadEv = [] := by
  have h : (if o.downloadReqFail then none else w.remote cfg.folderPath) = some c := by
    simp [hR, hRem]
  have hdl := downloadModel_ok cfg.folderPath w o c h
  have hT2 : (60 : Nat) < o.refreshTime := hT
  by_cases hdir : w.fs.dirs (docFolder cfg.folderPath w) <;>
    simp [processModel, hA, hdl, hdir, REFRESH_TIMEOUT, hT2, taskTimeout_has_sub,
      exceptHandlerBound, writeFile, setMap, isUploadEv, List.filter_append]

/-- Concrete instantiation of `C3_refresh_timeout_enforced` with a refresh
that takes 61 seconds. -/
theorem C3_refresh_timeout_enforced_witness :
    REFRESH_TIMEOUT < 61 ∧
    (processModel sampleCfg sampleWorld { sampleOracles with refreshTime := 61 }).2.2 =
      some (PyErr.runtimeError ("refresh_excel_file did not complete within the allowed time.".toList)) ∧
    (processModel sampleCfg sampleWorld
        { sampleOracles with refreshTime := 61 }).1.filter isUploadEv = [] := by
  have h := C3_refresh_timeout_enforced sampleCfg sampleWorld
    { sampleOracles with refreshTime := 61 } { queries := 5, cache := 0 }
    (by decide) (by decide) (by decide) (by decide)
  exact ⟨by decide, h.2.2.1, h.2.2.2⟩

/-- C8: every successful run uploads exactly twice when the work item's
`CustomFunction` equals the literal `"MonthlyFolder"` — once to the original
remote path and once as `DKPlan_<Month>_<Year>.xlsx` into the
`Dokumenter/Historik/<Year>/<Month>` folder chain (capitalized Danish month
name, local clock) — and exactly once when `CustomFunction` is absent or any
other value. -/
theorem C8_monthly_folder_upload_count (cfg : RunCfg) (w : World) (o : Oracles) (c : Workbook)
    (hA : o.authFail = false) (hR : o.downloadReqFail = false)
    (hRem : w.remote cfg.folderPath = some c)
    (hT : o.refreshTime ≤ REFRESH_TIMEOUT) (hF : ∀ op, o.refreshFault op = none)
    (hUF : o.uploadFolderFail = false) (hUC : o.uploadCallFail = false)
    (hAF : o.archiveFail = false) :
    (processModel cfg w o).2.2 = none ∧
    (cfg.customFunction = some monthlyFolderStr →
      (processModel cfg w o).1.filter isUploadEv =
        [Ev.uploadEv (uploadTargetFolder cfg.folderPath)
           (splitSharePointUrl cfg.folderPath).fileName (refreshedWb o c),
         Ev.uploadEv (archiveFolder o.year o.month) (archiveName o.year o.month)
           (refreshedWb o c)]) ∧
    (cfg.customFunction ≠ some monthlyFolderStr →
      (processModel cfg w o).1.filter isUploadEv =
        [Ev.uploadEv (uploadTargetFolder cfg.folderPath)
           (splitSharePointUrl cfg.folderPath).fileName (refreshedWb o c)]) := by
  have hp := processModel_ok cfg w o c hA hR hRem hT hF hUF hUC hAF
  rw [hp]
  refine ⟨rfl, ?_, ?_⟩ <;> intro hcf <;>
    by_cases hd : w.fs.dirs (docFolder cfg.folderPath w) <;>
      simp [successTrace, hcf, hd, isUploadEv, List.filter_append, refreshSteps]

/-- Concrete instantiation of `C8_monthly_folder_upload_count`: with the
clock at October 2026 the archive upload goes to
`Dokumenter/Historik/2026/Oktober` under the name
`DKPlan_Oktober_2026.xlsx`, next to the plain upload; without the custom
function there is exactly one upload. -/
theorem C8_monthly_folder_upload_count_witness :
    (processModel sampleCfgMonthly sampleWorld sampleOracles).1.filter isUploadEv =
      [Ev.uploadEv ("Docs/Reports".toList) ("plan.xlsx".toList) { queries := 5, cache := 12 },
       Ev.uploadEv ("Dokumenter/Historik/2026/Oktober".toList)
         ("DKPlan_Oktober_2026.xlsx".toList) { queries := 5, cache := 12 }] ∧
    (processModel sampleCfg sampleWorld sampleOracles).1.filter isUploadEv =
      [Ev.uploadEv ("Docs/Reports".toList) ("plan.xlsx".toList) { queries := 5, cache := 12 }] := by
  constructor
  · exact ((C8_monthly_folder_upload_count sampleCfgMonthly
      sampleWorld sampleOracles { queries := 5, cache := 0 }
      (by decide) (by decide) (by decide) (by decide) (fun _ => rfl)
      (by decide) (by decide) (by decide)).2.1 rfl).trans (by decide)
  · exact ((C8_monthly_folder_upload_count sampleCfg sampleWorld sampleOracles
      { queries := 5, cache := 0 }
      (by decide) (by decide) (by decide) (by decide) (fun _ => rfl)
      (by decide) (by decide) (by decide)).2.2 (by decide)).trans (by decide)

/-- C2 (amended): failures raised inside the `try:` block after the download
has returned — a faulting refresh (wrapped into a runtime error) or a
failing upload — are caught once at the top level: the scratch file, which
still exists then, is deleted unconditionally, the caught failure's text is
logged, and the failure is re-raised.  Authentication failures are not
caught at all: no error log, no deletion attempt.  When the download itself
fails, the handler's cleanup references the unassigned scratch-path
variable, so an unbound-variable error replaces the original failure and
nothing is logged.  Deletion is never skipped best-effort; `os.remove` runs
unconditionally. -/
theorem C2_toplevel_failure_handling :
    (∀ cfg w o, o.authFail = true →
      (processModel cfg w o).2.2 = some PyErr.authError ∧
      (processModel cfg w o).1.filter isLogErrorEv = [] ∧
      (processModel cfg w o).1.filter isRemoveEv = []) ∧
    (∀ cfg w o, o.authFail = false → o.downloadReqFail = true →
      (processModel cfg w o).2.2 = some PyErr.unboundLocalError ∧
      (processModel cfg w o).1.filter isLogErrorEv = [] ∧
      (processModel cfg w o).1.filter isRemoveEv = []) ∧
    (∀ cfg w o c msg, o.authFail = false → o.downloadReqFail = false →
      w.remote cfg.folderPath = some c → o.refreshTime ≤ REFRESH_TIMEOUT →
      o.refreshFault XlOp.dispatchEx = some msg → hasTimeoutSub msg = false →
      (processModel cfg w o).2.2 =
        some (PyErr.runtimeError ("Error in refresh_excel_file: ".toList ++ msg)) ∧
      Ev.removeLocal (dlPath cfg.folderPath w) ∈ (processModel cfg w o).1 ∧
      Ev.logError ("Error in refresh_excel_file: ".toList ++ msg) ∈ (processModel cfg w o).1) ∧
    (∀ cfg w o c, o.authFail = false → o.downloadReqFail = false →
      w.remote cfg.folderPath = some c → o.refreshTime ≤ REFRESH_TIMEOUT →
      (∀ op, o.refreshFault op = none) → o.uploadFolderFail = true →
      (processModel cfg w o).2.2 = some PyErr.folderResolveError ∧
      Ev.removeLocal (dlPath cfg.folderPath w) ∈ (processModel cfg w o).1 ∧
      Ev.logError (pyStr PyErr.folderResolveError) ∈ (processModel cfg w o).1) := by
  refine ⟨?_, ?_, ?_, ?_⟩
  · intro cfg w o hA
    simp [processModel, hA, isLogErrorEv, isRemoveEv]
  · intro cfg w o hA hRq
    have h : (if o.downloadReqFail then none else w.remote cfg.folderPath) = none := by
      simp [hRq]
    simp only [processModel, hA, Bool.false_eq_true, if_false,
      downloadModel_err cfg.folderPath w o h]
    refine ⟨trivial, ?_, ?_⟩ <;>
      by_cases hd : w.fs.dirs (docFolder cfg.folderPath w) <;>
        simp [hd, List.filter_append, isLogErrorEv, isRemoveEv]
  · intro cfg w o c msg hA hR hRem hT hfault hmsg
    have h : (if o.downloadReqFail then none else w.remote cfg.folderPath) = some c := by
      simp [hR, hRem]
    have hnt : ¬ REFRESH_TIMEOUT < o.refreshTime := Nat.not_lt.mpr hT
    have hrx : runXl o.refreshFault o.ext refreshSteps c c = ([], c, some msg) := by
      simp [runXl, refreshSteps, hfault]
    by_cases hd : w.fs.dirs (docFolder cfg.folderPath w) <;>
      simp [processModel, hA, downloadModel_ok cfg.folderPath w o c h, hnt,
        writeFile_files_self, hrx, hmsg, exceptHandlerBound, writeFile, setMap, pyStr, hd]
  · intro cfg w o c hA hR hRem hT hF hUF
    have h : (if o.downloadReqFail then none else w.remote cfg.folderPath) = some c := by
      simp [hR, hRem]
    have hnt : ¬ REFRESH_TIMEOUT < o.refreshTime := Nat.not_lt.mpr hT
    have hrx := runXl_no_fault o.refreshFault o.ext hF c c
    by_cases hd : w.fs.dirs (docFolder cfg.folderPath w) <;>
      simp [processModel, hA, downloadModel_ok cfg.folderPath w o c h, hnt,
        writeFile_files_self, hrx, uploadModel, hUF, exceptHandlerBound, writeFile,
        setMap, pyStr, hd]

/-- Concrete instantiation of `C2_toplevel_failure_handling`: an
authentication failure propagates with no log and no deletion, and an upload
folder-resolution failure is logged, triggers deletion and is re-raised. -/
theorem C2_toplevel_failure_handling_witness :
    (processModel sampleCfg sampleWorld { sampleOracles with authFail := true }).1.filter
      isRemoveEv = [] ∧
    (processModel sampleCfg sampleWorld { sampleOracles with uploadFolderFail := true }).2.2 =
      some PyErr.folderResolveError ∧
    Ev.removeLocal (dlPath sampleCfg.folderPath sampleWorld) ∈
      (processModel sampleCfg sampleWorld { sampleOracles with uploadFolderFail := true }).1 := by
  have h1 := C2_toplevel_failure_handling.1 sampleCfg sampleWorld
    { sampleOracles with authFail := true } (by decide)
  have h4 := C2_toplevel_failure_handling.2.2.2 sampleCfg sampleWorld
    { sampleOracles with uploadFolderFail := true } { queries := 5, cache := 0 }
    (by decide) (by decide) (by decide) (by decide) (fun _ => rfl) (by decide)
  exact ⟨h1.2.2, h4.1, h4.2.1⟩

/-- C10: running the same work item twice in sequence with no intervening
external change (same external data sources, clock and fault-free
collaborators, and a well-formed path whose upload target equals the
original path) succeeds both times, leaves the remote store of the second
run equal to that of the first, emits the same log milestones in both runs,
and does not accumulate local files — the local file map after the second
run equals the one after the first. -/
theorem C10_rerun_idempotent (cfg : RunCfg) (w : World) (o : Oracles) (c : Workbook)
    (hA : o.authFail = false) (hR : o.downloadReqFail = false)
    (hRem : w.remote cfg.folderPath = some c)
    (hT : o.refreshTime ≤ REFRESH_TIMEOUT) (hF : ∀ op, o.refreshFault op = none)
    (hUF : o.uploadFolderFail = false) (hUC : o.uploadCallFail = false)
    (hAF : o.archiveFail = false)
    (hKey : uploadTargetPath cfg.folderPath = cfg.folderPath) :
    (processModel cfg w o).2.2 = none ∧
    (processModel cfg (processModel cfg w o).2.1 o).2.2 = none ∧
    (processModel cfg (processModel cfg w o).2.1 o).2.1.remote =
      (processModel cfg w o).2.1.remote ∧
    (processModel cfg (processModel cfg w o).2.1 o).1.filter isLogEv =
      (processModel cfg w o).1.filter isLogEv ∧
    (processModel cfg (processModel cfg w o).2.1 o).2.1.fs.files =
      (processModel cfg w o).2.1.fs.files := by
  have hp1 := processModel_ok cfg w o c hA hR hRem hT hF hUF hUC hAF
  have hRem2 : (successWorld cfg w o c).remote cfg.folderPath = some (refreshedWb o c) := by
    by_cases hcf : cfg.customFunction = some monthlyFolderStr
    · by_cases hap : cfg.folderPath = archivePath o.year o.month <;>
        simp [successWorld, hcf, setMap, hKey, hap]
    · simp [successWorld, hcf, setMap, hKey]
  have hp2 := processModel_ok cfg (successWorld cfg w o c) o (refreshedWb o c)
    hA hR hRem2 hT hF hUF hUC hAF
  have hvv : refreshedWb o (refreshedWb o c) = refreshedWb o c := rfl
  rw [hp1]
  dsimp only
  rw [hp2]
  dsimp only
  refine ⟨rfl, rfl, ?_, ?_, ?_⟩
  · by_cases hcf : cfg.customFunction = some monthlyFolderStr
    · simp only [successWorld, hcf, if_pos, hvv]
      have h1 : (setMap (setMap w.remote (uploadTargetPath cfg.folderPath) (refreshedWb o c))
          (archivePath o.year o.month) (refreshedWb o c)) (uploadTargetPath cfg.folderPath) =
          some (refreshedWb o c) := by
        by_cases hap : uploadTargetPath cfg.folderPath = archivePath o.year o.month <;>
          simp [setMap, hap]
      rw [setMap_self _ _ _ h1, setMap_self _ _ _ (setMap_get _ _ _)]
    · simp only [successWorld, hcf, if_neg, hvv, ite_false]
      rw [setMap_self _ _ _ (setMap_get _ _ _)]
  · by_cases hcf : cfg.customFunction = some monthlyFolderStr <;>
      by_cases hd : w.fs.dirs (docFolder cfg.folderPath w) <;>
        simp [successTrace, successWorld, docFolder, dlPath, hcf, hd, isLogEv,
          List.filter_append, refreshSteps]
  · have base1 : ∀ q, (successWorld cfg (successWorld cfg w o c) o (refreshedWb o c)).fs.files q =
        if q = dlPath cfg.folderPath w then none else (successWorld cfg w o c).fs.files q :=
      fun _ => rfl
    have base2 : ∀ q, (successWorld cfg w o c).fs.files q =
        if q = dlPath cfg.folderPath w then none else w.fs.files q :=
      fun _ => rfl
    funext q
    rw [base1 q, base2 q]
    by_cases hq : q = dlPath cfg.folderPath w <;> simp [hq]

/-- Concrete instantiation of `C10_rerun_idempotent` on the sample work
item. -/
theorem C10_rerun_idempotent_witness :
    (processModel sampleCfg sampleWorld sampleOracles).2.2 = none ∧
    (processModel sampleCfg (processModel sampleCfg sampleWorld sampleOracles).2.1
        sampleOracles).2.2 = none ∧
    (processModel sampleCfg (processModel sampleCfg sampleWorld sampleOracles).2.1
        sampleOracles).1.filter isLogEv =
      (processModel sampleCfg sampleWorld sampleOracles).1.filter isLogEv := by
  have h := C10_rerun_idempotent sampleCfg sampleWorld sampleOracles
    { queries := 5, cache := 0 } (by decide) (by decide) (by decide) (by decide)
    (fun _ => rfl) (by decide) (by decide) (by decide) (by decide)
  exact ⟨h.1, h.2.1, h.2.2.2.1⟩

end ExcelRefresher
